import Mathlib

/-!
# Setup wizard of the sync client: auth-type discovery and credential checks

A shallow embedding of `src/mirall/owncloudsetupwizard.cpp`.

* `QString` is a list of characters, so that `startsWith`, `endsWith` and the
  regular-expression search reduce by plain structural recursion.
* `QUrl` keeps the scheme apart from the remainder of the URL; the empty URL
  has neither.
* A slot takes the object's state and the data it reads, and returns the new
  state together with the list of calls and signals it makes, in program
  order.
* `QNetworkReply::NetworkError` is the integer value of the Qt enumerator,
  because `slotCreateRemoteFolderFinished` compares it with `202` and `300`.
-/

namespace Mirall

/-! ## Strings and URLs -/

/-- A `QString`, as the list of its characters. -/
abbrev QString := List Char

namespace QString

/-- `QString::startsWith`, case sensitive (the default the source uses). -/
def startsWith (s pre : QString) : Bool := pre.isPrefixOf s

/-- `QString::endsWith`, case sensitive (the default the source uses). -/
def endsWith (s suf : QString) : Bool := suf.isSuffixOf s

/-- Whether `needle` occurs in `s` as a contiguous block. -/
def occursIn (needle : QString) : QString → Bool
  | [] => needle.isPrefixOf []
  | c :: cs => needle.isPrefixOf (c :: cs) || occursIn needle cs

/-- Search for a literal word with `Qt::CaseInsensitive`: both sides are
compared after `toLower`. For the ASCII letters of the two words searched in
this file, a character lowers to one of them only if it is that letter or its
ASCII capital, which is what `Char.toLower` computes. -/
def containsCaseInsensitive (s word : QString) : Bool :=
  occursIn (word.map Char.toLower) (s.map Char.toLower)

end QString

/-- A `QUrl`: its scheme and what follows the colon. -/
structure QUrl where
  scheme : QString
  rest : QString
  deriving DecidableEq, Repr

namespace QUrl

/-- The default-constructed URL, also the result of `QUrl::clear`. -/
def empty : QUrl := ⟨[], []⟩

/-- `QUrl::clear`. -/
def clear (_u : QUrl) : QUrl := empty

/-- `QUrl::isEmpty`: the URL has no data. -/
def isEmpty (u : QUrl) : Bool := u.scheme.isEmpty && u.rest.isEmpty

/-- `QUrl::toString`. -/
def toString (u : QUrl) : QString :=
  if u.scheme.isEmpty then u.rest else u.scheme ++ ':' :: u.rest

/-- `QUrl::setScheme`. -/
def setScheme (u : QUrl) (s : QString) : QUrl := { u with scheme := s }

end QUrl

/-! ## Network replies -/

/-! Values of `QNetworkReply::NetworkError` (Qt's enumeration). -/

namespace QNetworkReply

def NoError : Int := 0
def ConnectionRefusedError : Int := 1
def HostNotFoundError : Int := 3
def TimeoutError : Int := 4
def OperationCanceledError : Int := 5
def SslHandshakeFailedError : Int := 6
def ContentOperationNotPermittedError : Int := 202
def ContentNotFoundError : Int := 203
def AuthenticationRequiredError : Int := 204

end QNetworkReply

/-- What the slots read from a finished `QNetworkReply`: its error code and
its `RedirectionTargetAttribute` converted with `toUrl()` (the empty URL when
the attribute is absent). -/
structure Reply where
  error : Int
  redirectionTarget : QUrl
  deriving DecidableEq, Repr

/-! ## DetermineAuthTypeJob -/

/-- The two enumerators of `WizardCommon::AuthType` the job emits. -/
inductive AuthType where
  | HttpCreds
  | Shibboleth
  deriving DecidableEq, Repr

/-- The two members the job reads that are declared outside this file:
`AbstractNetworkJob::maxRedirects()` and `Account::davPath()`. -/
structure Config where
  maxRedirects : Int
  davPath : QString
  deriving DecidableEq, Repr

/-- Modelled from the spec: `Account::davPath()` is declared in
`mirall/account.h`, which is not part of the source at hand; the spec gives the
capability-discovery path as `<server-base>/remote.php/webdav/`. -/
def Account.davPath : QString := "remote.php/webdav/".toList

/-- Modelled from the spec: `AbstractNetworkJob::maxRedirects()` is declared in
`mirall/networkjobs.h`, which is not part of the source at hand; the spec gives
the redirect bound as 10. -/
def AbstractNetworkJob.maxRedirects : Int := 10

/-- Modelled from the spec: the URL requested by the constructor of
`DetermineAuthTypeJob`, `getRequest(Account::davPath())`, which resolves the
path against the account's URL in `mirall/account.cpp`, not part of the source
at hand; the spec gives the probed URL as `<server-base>/remote.php/webdav/`. -/
def Account.davUrl (accountUrl : QUrl) : QUrl :=
  { accountUrl with rest := accountUrl.rest ++ '/' :: Account.davPath }

/-- The configuration the spec describes. -/
def specConfig : Config := ⟨AbstractNetworkJob.maxRedirects, Account.davPath⟩

/-- State of a `DetermineAuthTypeJob`: the member `_redirects` and whether
`deleteLater()` has been called on the object. -/
structure DetermineAuthTypeJob where
  _redirects : Int
  deleteLaterCalled : Bool
  deriving DecidableEq, Repr

/-- What a call of `DetermineAuthTypeJob::slotFinished` does that is visible
outside the object. -/
inductive JobEffect where
  /-- The signal `emit authType(t)`. -/
  | authType (t : AuthType)
  /-- The statements `setReply(getRequest(url)); setupConnections(reply())`. -/
  | getRequest (url : QUrl)
  deriving DecidableEq, Repr

/-- `QRegExp shibbolethyWords("SAML|wayf")` with `Qt::CaseInsensitive`, as used
by `QString::contains`. -/
def shibbolethyWords (s : QString) : Bool :=
  QString.containsCaseInsensitive s "SAML".toList ||
    QString.containsCaseInsensitive s "wayf".toList

/-- The constructor `DetermineAuthTypeJob::DetermineAuthTypeJob`: `_redirects(0)`. -/
def DetermineAuthTypeJob.new : DetermineAuthTypeJob := ⟨0, false⟩

/-- `DetermineAuthTypeJob::slotFinished`. The increment `_redirects++` is only
reached when `_redirects < maxRedirects()`, both of type `int`, so it cannot
wrap around. -/
def DetermineAuthTypeJob.slotFinished (cfg : Config) (job : DetermineAuthTypeJob)
    (reply : Reply) : DetermineAuthTypeJob × List JobEffect :=
  let redirection : QUrl :=
    if job._redirects ≥ cfg.maxRedirects then reply.redirectionTarget.clear
    else reply.redirectionTarget
  let r : DetermineAuthTypeJob × List JobEffect :=
    if reply.error = QNetworkReply.AuthenticationRequiredError ∨ redirection.isEmpty = true then
      (job, [JobEffect.authType AuthType.HttpCreds])
    else if QString.endsWith redirection.toString cfg.davPath = true then
      -- do a new run
      ({ job with _redirects := job._redirects + 1 }, [JobEffect.getRequest redirection])
    else if shibbolethyWords redirection.toString = true then
      (job, [JobEffect.authType AuthType.Shibboleth])
    else
      (job, [JobEffect.authType AuthType.HttpCreds])
  -- `deleteLater();` closes the function on every path
  ({ r.1 with deleteLaterCalled := true }, r.2)

/-! ## One discovery run under the event loop

`slotFinished` runs when the reply of the outstanding request finishes.
`QObject::deleteLater()` schedules the object for deletion: it is deleted when
control returns to the event loop, and the connections made by
`setupConnections` go with it, so a reply that finishes afterwards reaches no
slot of the job. -/

namespace JobEffect

/-- The requests among the effects, in order. -/
def requests : List JobEffect → List QUrl
  | [] => []
  | authType _ :: es => requests es
  | getRequest u :: es => u :: requests es

/-- The `authType` signals among the effects, in order. -/
def signals : List JobEffect → List AuthType
  | [] => []
  | authType t :: es => t :: signals es
  | getRequest _ :: es => signals es

end JobEffect

/-- `slotFinished` called once for each reply of the list in turn, on the same
object, whatever `deleteLater()` did: the member `_redirects` at the end and
all the effects. -/
def DetermineAuthTypeJob.slotFinishedEach (cfg : Config) (job : DetermineAuthTypeJob) :
    List Reply → DetermineAuthTypeJob × List JobEffect
  | [] => (job, [])
  | reply :: rest =>
    let s := DetermineAuthTypeJob.slotFinished cfg job reply
    let t := DetermineAuthTypeJob.slotFinishedEach cfg s.1 rest
    (t.1, s.2 ++ t.2)

/-- A discovery run as seen from the event loop. -/
structure Discovery where
  /-- The `DetermineAuthTypeJob` object. -/
  job : DetermineAuthTypeJob
  /-- The event loop has deleted the object. -/
  destroyed : Bool
  /-- The request whose reply has not finished yet. -/
  pending : Option QUrl
  /-- Every request issued so far, oldest first. -/
  probes : List QUrl
  /-- Every `authType` signal emitted so far, oldest first. -/
  emitted : List AuthType
  deriving DecidableEq, Repr

namespace Discovery

/-- The constructor has run: `_redirects` is 0 and the request to `first` (the
account's URL followed by `Account::davPath()`) is outstanding. -/
def start (first : QUrl) : Discovery :=
  { job := DetermineAuthTypeJob.new, destroyed := false, pending := some first,
    probes := [first], emitted := [] }

/-- No further reply will reach the job: it has been deleted, or no request is
outstanding. -/
def terminal (d : Discovery) : Bool := d.destroyed || d.pending.isNone

/-- The next reply finishes. A live job with an outstanding request gets
`slotFinished`; then control returns to the event loop, which deletes the
object if `deleteLater()` was called. -/
def deliver (cfg : Config) (d : Discovery) (reply : Reply) : Discovery :=
  if d.terminal = true then d
  else
    let r := DetermineAuthTypeJob.slotFinished cfg d.job reply
    { job := r.1
      destroyed := r.1.deleteLaterCalled
      pending := (JobEffect.requests r.2).getLast?
      probes := d.probes ++ JobEffect.requests r.2
      emitted := d.emitted ++ JobEffect.signals r.2 }

/-- The run against a server that answers the successive requests with the
replies of the list. -/
def run (cfg : Config) (first : QUrl) (replies : List Reply) : Discovery :=
  replies.foldl (deliver cfg) (start first)

end Discovery

/-! ## ValidateDavAuthJob -/

/-- `ValidateDavAuthJob::slotFinished`: `emit authResult(reply())`, then
`deleteLater()`. The result is the list of `authResult` signals. -/
def ValidateDavAuthJob.slotFinished (reply : Reply) : List Reply := [reply]

/-! ## OwncloudSetupWizard -/

/-- An argument given to `QString::arg`. -/
inductive Arg where
  | str (s : QString)
  | num (n : Int)
  deriving DecidableEq, Repr

/-- A piece of user-visible text: a `QLatin1String` literal, or a `tr(...)`
template with the arguments of its `.arg(...)` calls in order. -/
inductive Fragment where
  | latin1 (s : String)
  | tr (template : String) (args : List Arg)
  deriving DecidableEq, Repr

/-- User-visible text: fragments joined with `+`. -/
abbrev Text := List Fragment

/-- A call the setup wizard makes on `_ocWizard` or on the account, or a job it
creates and connects. -/
inductive WizardCall where
  | displayError (t : Text)
  | appendToConfigurationLog (t : Text)
  | successfulStep
  | enableFinishOnResultWidget (enable : Bool)
  | accountSetUrl (u : QUrl)
  | newCheckServerJob
  | newDetermineAuthTypeJob
  | newValidateDavAuthJob
  deriving DecidableEq, Repr

/-- The state the modelled slots of `OwncloudSetupWizard` read and write: the
URL of `_ocWizard->account()`, the wizard property `localFolder`, and the
member `_remoteFolder`. -/
structure OwncloudSetupWizard where
  accountUrl : QUrl
  localFolder : QString
  _remoteFolder : QString
  deriving DecidableEq, Repr

namespace OwncloudSetupWizard

/-- `OwncloudSetupWizard::slotDetermineAuthType`. `QUrl::fromUserInput` is Qt's
and is a parameter. -/
def slotDetermineAuthType (fromUserInput : QString → QUrl) (w : OwncloudSetupWizard)
    (urlString : QString) : OwncloudSetupWizard × List WizardCall :=
  let fixedUrl := urlString
  let url := fromUserInput fixedUrl
  -- fromUserInput defaults to http if no scheme is specified
  let url :=
    if (!QString.startsWith fixedUrl "http://".toList
        && !QString.startsWith fixedUrl "https://".toList) = true
    then url.setScheme "https".toList
    else url
  ({ w with accountUrl := url }, [WizardCall.accountSetUrl url, WizardCall.newCheckServerJob])

/-- `OwncloudSetupWizard::slotOwnCloudFoundAuth`, the slot of the signal
`CheckServerJob::instanceFound`. `versionString` and `version` stand for
`CheckServerJob::versionString(info)` and `CheckServerJob::version(info)`. -/
def slotOwnCloudFoundAuth (appNameGUI : QString) (url : QUrl)
    (versionString version : QString) : List WizardCall :=
  [ WizardCall.appendToConfigurationLog
      [Fragment.tr
        "<font color=\"green\">Successfully connected to %1: %2 version %3 (%4)</font><br/><br/>"
        [Arg.str url.toString, Arg.str appNameGUI, Arg.str versionString, Arg.str version]],
    WizardCall.newDetermineAuthTypeJob ]

/-- `OwncloudSetupWizard::slotNoOwnCloudFoundAuth`, the slot of the signal
`CheckServerJob::networkError`. `replyUrl` and `errorString` stand for
`reply->url().toString()` and `reply->errorString()`. -/
def slotNoOwnCloudFoundAuth (appNameGUI replyUrl errorString : QString) : List WizardCall :=
  [ WizardCall.displayError
      [Fragment.tr "Failed to connect to %1 at %2:<br/>%3"
        [Arg.str appNameGUI, Arg.str replyUrl, Arg.str errorString]] ]

/-- `OwncloudSetupWizard::testOwnCloudConnect`. -/
def testOwnCloudConnect : List WizardCall := [WizardCall.newValidateDavAuthJob]

/-- `OwncloudSetupWizard::slotConnectionCheck`, the slot of the signal
`ValidateDavAuthJob::authResult`. -/
def slotConnectionCheck (reply : Reply) : List WizardCall :=
  if reply.error = QNetworkReply.NoError ∨ reply.error = QNetworkReply.ContentNotFoundError then
    [WizardCall.successfulStep]
  else
    [WizardCall.displayError [Fragment.tr "Error: Wrong credentials." []]]

/-- The connection made in `testOwnCloudConnect`: each `authResult` signal of
the job calls `slotConnectionCheck` with the reply it carries. -/
def onAuthResult : List Reply → List WizardCall
  | [] => []
  | reply :: rest => slotConnectionCheck reply ++ onAuthResult rest

/-- `OwncloudSetupWizard::finalizeSetup`. -/
def finalizeSetup (appNameGUI : QString) (w : OwncloudSetupWizard) (success : Bool) :
    List WizardCall :=
  -- enable/disable the finish button.
  WizardCall.enableFinishOnResultWidget success ::
  (if success = true then
    (if !(w.localFolder.isEmpty || w._remoteFolder.isEmpty) = true then
      [WizardCall.appendToConfigurationLog
        [Fragment.tr "A sync connection from %1 to remote directory %2 was set up."
          [Arg.str w.localFolder, Arg.str w._remoteFolder]]]
    else []) ++
    [ WizardCall.appendToConfigurationLog [Fragment.latin1 " "],
      WizardCall.appendToConfigurationLog
        [ Fragment.latin1 "<p><font color=\"green\"><b>",
          Fragment.tr "Successfully connected to %1!" [Arg.str appNameGUI],
          Fragment.latin1 "</b></font></p>" ],
      WizardCall.successfulStep ]
  else
    [ WizardCall.appendToConfigurationLog
        [ Fragment.latin1 "<p><font color=\"red\">",
          Fragment.tr "Connection to %1 could not be established. Please check again."
            [Arg.str appNameGUI],
          Fragment.latin1 "</font></p>" ] ])

/-- `OwncloudSetupWizard::slotCreateRemoteFolderFinished`: the branch on
`error` gives the wizard after it, the value of `success` and the calls made;
`finalizeSetup( success )` follows. -/
def slotCreateRemoteFolderFinished (appNameGUI : QString) (w : OwncloudSetupWizard)
    (error : Int) : OwncloudSetupWizard × List WizardCall :=
  let o : OwncloudSetupWizard × Bool × List WizardCall :=
    if error = QNetworkReply.NoError then
      (w, true,
        [WizardCall.appendToConfigurationLog
          [Fragment.tr "Remote folder %1 created successfully." [Arg.str w._remoteFolder]]])
    else if error = 202 then
      (w, true,
        [WizardCall.appendToConfigurationLog
          [Fragment.tr "The remote folder %1 already exists. Connecting it for syncing."
            [Arg.str w._remoteFolder]]])
    else if error > 202 ∧ error < 300 then
      (w, true,
        [ WizardCall.displayError
            [Fragment.tr "The folder creation resulted in HTTP error code %1" [Arg.num error]],
          WizardCall.appendToConfigurationLog
            [Fragment.tr "The folder creation resulted in HTTP error code %1" [Arg.num error]] ])
    else if error = QNetworkReply.OperationCanceledError then
      ({ w with _remoteFolder := [] }, false,
        [ WizardCall.displayError
            [Fragment.tr "The remote folder creation failed because the provided credentials are wrong!<br/>Please go back and check your credentials.</p>" []],
          WizardCall.appendToConfigurationLog
            [Fragment.tr "<p><font color=\"red\">Remote folder creation failed probably because the provided credentials are wrong.</font><br/>Please go back and check your credentials.</p>" []] ])
    else
      ({ w with _remoteFolder := [] }, false,
        [ WizardCall.appendToConfigurationLog
            [Fragment.tr "Remote folder %1 creation failed with error <tt>%2</tt>."
              [Arg.str w._remoteFolder, Arg.num error]],
          WizardCall.displayError
            [Fragment.tr "Remote folder %1 creation failed with error <tt>%2</tt>."
              [Arg.str w._remoteFolder, Arg.num error]] ])
  (o.1, o.2.2 ++ finalizeSetup appNameGUI o.1 o.2.1)

/-- The calls of the list that only `finalizeSetup` makes, one for each time it
is called: `enableFinishOnResultWidget`. -/
def finalizeSetupCalls : List WizardCall → List Bool
  | [] => []
  | WizardCall.enableFinishOnResultWidget b :: cs => b :: finalizeSetupCalls cs
  | _ :: cs => finalizeSetupCalls cs

end OwncloudSetupWizard

/-! ## Sample data for the concrete statements -/

/-- A stand-in for `QUrl::fromUserInput` on the two plainest kinds of input:
text with `://` is split at the first colon, any other text is taken as a host
name and gets the scheme `http`. -/
def sampleFromUserInput (s : QString) : QUrl :=
  if QString.occursIn "://".toList s = true then
    ⟨s.takeWhile (fun c => c != ':'), (s.dropWhile (fun c => c != ':')).drop 1⟩
  else ⟨"http".toList, "//".toList ++ s⟩

/-- A wizard before the URL is entered. -/
def sampleWizard : OwncloudSetupWizard :=
  { accountUrl := QUrl.empty, localFolder := "/home/u/ownCloud".toList,
    _remoteFolder := "clientsync".toList }

/-- The URL of the first request of a run against `https://cloud.example.org`. -/
def sampleFirst : QUrl := ⟨"https".toList, "//cloud.example.org/remote.php/webdav/".toList⟩

/-- A redirect to the same path on another host. -/
def samePathRedirect : Reply :=
  ⟨QNetworkReply.NoError, ⟨"https".toList, "//example.com/remote.php/webdav/".toList⟩⟩

/-- A redirect to a SAML login page. -/
def samlRedirect : Reply :=
  ⟨QNetworkReply.NoError, ⟨"https".toList, "//sso.example.com/saml/login".toList⟩⟩

/-- A redirect to the discovery path of a host whose name holds a marker. -/
def samlHostSamePathRedirect : Reply :=
  ⟨QNetworkReply.NoError, ⟨"https".toList, "//saml.example.com/remote.php/webdav/".toList⟩⟩

/-- A `401` answer: authentication required, no redirect. -/
def authRequiredReply : Reply := ⟨QNetworkReply.AuthenticationRequiredError, QUrl.empty⟩

/-- A refused connection: a network failure, no redirect. -/
def connectionRefusedReply : Reply := ⟨QNetworkReply.ConnectionRefusedError, QUrl.empty⟩

end Mirall

namespace Mirall

open DetermineAuthTypeJob OwncloudSetupWizard

/-! ## Lemmas on `slotFinished` -/

theorem QUrl.isEmpty_clear (u : QUrl) : u.clear.isEmpty = true := by
  simp [QUrl.clear, QUrl.empty, QUrl.isEmpty]

/-- At the bound the target is cleared, so the first branch is taken. -/
theorem slotFinished_at_bound (cfg : Config) (job : DetermineAuthTypeJob) (reply : Reply)
    (h : cfg.maxRedirects ≤ job._redirects) :
    slotFinished cfg job reply
      = ({ job with deleteLaterCalled := true }, [JobEffect.authType AuthType.HttpCreds]) := by
  simp [slotFinished, h, QUrl.isEmpty_clear]

/-- An authentication challenge takes the first branch. -/
theorem slotFinished_authRequired (cfg : Config) (job : DetermineAuthTypeJob) (reply : Reply)
    (h : reply.error = QNetworkReply.AuthenticationRequiredError) :
    slotFinished cfg job reply
      = ({ job with deleteLaterCalled := true }, [JobEffect.authType AuthType.HttpCreds]) := by
  simp [slotFinished, h]

/-- A reply without redirect target takes the first branch. -/
theorem slotFinished_noTarget (cfg : Config) (job : DetermineAuthTypeJob) (reply : Reply)
    (h : reply.redirectionTarget.isEmpty = true) :
    slotFinished cfg job reply
      = ({ job with deleteLaterCalled := true }, [JobEffect.authType AuthType.HttpCreds]) := by
  by_cases hb : cfg.maxRedirects ≤ job._redirects
  · exact slotFinished_at_bound cfg job reply hb
  · simp [slotFinished, h, hb]

/-- Below the bound, a redirect to the discovery path is followed. -/
theorem slotFinished_follow (cfg : Config) (job : DetermineAuthTypeJob) (reply : Reply)
    (hb : job._redirects < cfg.maxRedirects)
    (he : reply.error ≠ QNetworkReply.AuthenticationRequiredError)
    (ht : reply.redirectionTarget.isEmpty = false)
    (hp : QString.endsWith reply.redirectionTarget.toString cfg.davPath = true) :
    slotFinished cfg job reply
      = (⟨job._redirects + 1, true⟩, [JobEffect.getRequest reply.redirectionTarget]) := by
  have hb2 : ¬ cfg.maxRedirects ≤ job._redirects := not_le.mpr hb
  simp [slotFinished, hb2, he, ht, hp]

/-- Below the bound, a redirect elsewhere is classified by the markers. -/
theorem slotFinished_classify (cfg : Config) (job : DetermineAuthTypeJob) (reply : Reply)
    (hb : job._redirects < cfg.maxRedirects)
    (he : reply.error ≠ QNetworkReply.AuthenticationRequiredError)
    (ht : reply.redirectionTarget.isEmpty = false)
    (hp : QString.endsWith reply.redirectionTarget.toString cfg.davPath = false) :
    slotFinished cfg job reply
      = ({ job with deleteLaterCalled := true },
          [JobEffect.authType
            (if shibbolethyWords reply.redirectionTarget.toString = true
              then AuthType.Shibboleth else AuthType.HttpCreds)]) := by
  have hb2 : ¬ cfg.maxRedirects ≤ job._redirects := not_le.mpr hb
  by_cases hm : shibbolethyWords reply.redirectionTarget.toString = true <;>
    simp [slotFinished, hb2, he, ht, hp, hm]

/-- The five ways through `slotFinished`. -/
theorem slotFinished_cases (cfg : Config) (job : DetermineAuthTypeJob) (reply : Reply) :
    (slotFinished cfg job reply
        = ({ job with deleteLaterCalled := true }, [JobEffect.authType AuthType.HttpCreds]) ∧
      (cfg.maxRedirects ≤ job._redirects ∨
        reply.error = QNetworkReply.AuthenticationRequiredError ∨
        reply.redirectionTarget.isEmpty = true ∨
        (QString.endsWith reply.redirectionTarget.toString cfg.davPath = false ∧
          shibbolethyWords reply.redirectionTarget.toString = false))) ∨
    (slotFinished cfg job reply
        = (⟨job._redirects + 1, true⟩, [JobEffect.getRequest reply.redirectionTarget]) ∧
      job._redirects < cfg.maxRedirects ∧
      reply.error ≠ QNetworkReply.AuthenticationRequiredError ∧
      reply.redirectionTarget.isEmpty = false ∧
      QString.endsWith reply.redirectionTarget.toString cfg.davPath = true) ∨
    (slotFinished cfg job reply
        = ({ job with deleteLaterCalled := true }, [JobEffect.authType AuthType.Shibboleth]) ∧
      job._redirects < cfg.maxRedirects ∧
      reply.error ≠ QNetworkReply.AuthenticationRequiredError ∧
      reply.redirectionTarget.isEmpty = false ∧
      QString.endsWith reply.redirectionTarget.toString cfg.davPath = false ∧
      shibbolethyWords reply.redirectionTarget.toString = true) := by
  by_cases hb : cfg.maxRedirects ≤ job._redirects
  · exact Or.inl ⟨slotFinished_at_bound cfg job reply hb, Or.inl hb⟩
  by_cases he : reply.error = QNetworkReply.AuthenticationRequiredError
  · exact Or.inl ⟨slotFinished_authRequired cfg job reply he, Or.inr (Or.inl he)⟩
  by_cases ht : reply.redirectionTarget.isEmpty = true
  · exact Or.inl ⟨slotFinished_noTarget cfg job reply ht, Or.inr (Or.inr (Or.inl ht))⟩
  have hb1 : job._redirects < cfg.maxRedirects := not_le.mp hb
  have ht1 : reply.redirectionTarget.isEmpty = false := by simpa using ht
  by_cases hp : QString.endsWith reply.redirectionTarget.toString cfg.davPath = true
  · exact Or.inr (Or.inl ⟨slotFinished_follow cfg job reply hb1 he ht1 hp, hb1, he, ht1, hp⟩)
  have hp1 : QString.endsWith reply.redirectionTarget.toString cfg.davPath = false := by
    simpa using hp
  have hc := slotFinished_classify cfg job reply hb1 he ht1 hp1
  by_cases hm : shibbolethyWords reply.redirectionTarget.toString = true
  · rw [if_pos hm] at hc
    exact Or.inr (Or.inr ⟨hc, hb1, he, ht1, hp1, hm⟩)
  · rw [if_neg hm] at hc
    have hm1 : shibbolethyWords reply.redirectionTarget.toString = false := by simpa using hm
    exact Or.inl ⟨hc, Or.inr (Or.inr (Or.inr ⟨hp1, hm1⟩))⟩

/-! ## The claims on a single reply -/

/-- C1. When `slotFinished` takes a terminal branch (it issues no new request),
the signal it emits is `authType(Shibboleth)` exactly when the reply is not an
authentication-required error, `_redirects` is below `maxRedirects()`, and the
redirect target is non-empty, does not end with `davPath()` and contains
"SAML" or "wayf" in any letter case; in every other terminal case it emits
`authType(HttpCreds)`. -/
theorem slotFinished_terminal_scheme (cfg : Config) (job : DetermineAuthTypeJob)
    (reply : Reply)
    (hterm : JobEffect.requests (slotFinished cfg job reply).2 = []) :
    ((slotFinished cfg job reply).2 = [JobEffect.authType AuthType.Shibboleth] ↔
      (reply.error ≠ QNetworkReply.AuthenticationRequiredError ∧
        job._redirects < cfg.maxRedirects ∧
        reply.redirectionTarget.isEmpty = false ∧
        QString.endsWith reply.redirectionTarget.toString cfg.davPath = false ∧
        shibbolethyWords reply.redirectionTarget.toString = true)) ∧
    (¬ (reply.error ≠ QNetworkReply.AuthenticationRequiredError ∧
        job._redirects < cfg.maxRedirects ∧
        reply.redirectionTarget.isEmpty = false ∧
        QString.endsWith reply.redirectionTarget.toString cfg.davPath = false ∧
        shibbolethyWords reply.redirectionTarget.toString = true) →
      (slotFinished cfg job reply).2 = [JobEffect.authType AuthType.HttpCreds]) := by
  rcases slotFinished_cases cfg job reply with ⟨h, hc⟩ | ⟨h, hb, he, ht, hp⟩ | ⟨h, hb, he, ht, hp, hm⟩
  · rw [h]
    refine ⟨⟨fun hx => by simp at hx, fun hx => ?_⟩, fun _ => rfl⟩
    obtain ⟨he, hb, ht, hp, hm⟩ := hx
    rcases hc with hc | hc | hc | ⟨_, hc⟩
    · exact absurd hb (not_lt.mpr hc)
    · exact absurd hc he
    · simp [ht] at hc
    · simp [hm] at hc
  · rw [h] at hterm
    simp [JobEffect.requests] at hterm
  · rw [h]
    exact ⟨⟨fun _ => ⟨he, hb, ht, hp, hm⟩, fun _ => rfl⟩, fun hn => absurd ⟨he, hb, ht, hp, hm⟩ hn⟩

/-- Witness for C1: the redirect to a SAML login page, first reply of a run. -/
theorem slotFinished_terminal_scheme_witness :
    JobEffect.requests (slotFinished specConfig DetermineAuthTypeJob.new samlRedirect).2 = [] ∧
    (slotFinished specConfig DetermineAuthTypeJob.new samlRedirect).2
      = [JobEffect.authType AuthType.Shibboleth] :=
  ⟨by decide,
    (slotFinished_terminal_scheme specConfig DetermineAuthTypeJob.new samlRedirect
      (by decide)).1.mpr (by decide)⟩

/-- The empty text holds neither marker. -/
theorem shibbolethyWords_of_isEmpty (u : QUrl) (h : u.isEmpty = true) :
    shibbolethyWords u.toString = false := by
  obtain ⟨sch, rst⟩ := u
  simp only [QUrl.isEmpty, Bool.and_eq_true, List.isEmpty_iff] at h
  obtain ⟨h1, h2⟩ := h
  subst h1
  subst h2
  decide

/-- C3, as the code has it. A redirect reply (not an authentication-required
error) whose target contains "SAML" or "wayf" in any letter case and does not
end with `davPath()`, received while `_redirects` is below `maxRedirects()`,
makes `slotFinished` emit `authType(Shibboleth)` and nothing else; received as
the first reply of a run, it ends the run with that one signal. -/
theorem slotFinished_marker_offPath_federated (cfg : Config) (job : DetermineAuthTypeJob)
    (reply : Reply) (first : QUrl)
    (hm : shibbolethyWords reply.redirectionTarget.toString = true)
    (hp : QString.endsWith reply.redirectionTarget.toString cfg.davPath = false)
    (hb : job._redirects < cfg.maxRedirects)
    (he : reply.error ≠ QNetworkReply.AuthenticationRequiredError) :
    (slotFinished cfg job reply).2 = [JobEffect.authType AuthType.Shibboleth] ∧
    (job = DetermineAuthTypeJob.new →
      (Discovery.run cfg first [reply]).emitted = [AuthType.Shibboleth] ∧
      (Discovery.run cfg first [reply]).probes = [first] ∧
      (Discovery.run cfg first [reply]).terminal = true) := by
  have ht : reply.redirectionTarget.isEmpty = false := by
    by_contra hne
    have h1 : reply.redirectionTarget.isEmpty = true := by simpa using hne
    have h2 := shibbolethyWords_of_isEmpty _ h1
    rw [hm] at h2
    exact Bool.noConfusion h2
  have hs := slotFinished_classify cfg job reply hb he ht hp
  rw [if_pos hm] at hs
  refine ⟨by rw [hs], fun hj => ?_⟩
  subst hj
  simp [Discovery.run, Discovery.deliver, Discovery.start, Discovery.terminal, hs,
    JobEffect.requests, JobEffect.signals]

/-- Witness for C3 as amended: the spec's scenario, a `302` to
`https://sso.example.com/saml/login` as the first reply. -/
theorem slotFinished_marker_offPath_federated_witness :
    (slotFinished specConfig DetermineAuthTypeJob.new samlRedirect).2
      = [JobEffect.authType AuthType.Shibboleth] ∧
    (Discovery.run specConfig sampleFirst [samlRedirect]).emitted = [AuthType.Shibboleth] :=
  have h := slotFinished_marker_offPath_federated specConfig DetermineAuthTypeJob.new
    samlRedirect sampleFirst (by decide) (by decide) (by decide) (by decide)
  ⟨h.1, (h.2 rfl).1⟩

/-- Counterexample to C3 as stated. The target
`https://saml.example.com/remote.php/webdav/` contains "saml", yet the reply is
followed as a same-path redirect and no `authType(Shibboleth)` is emitted, also
not when the next answer is a `401`; and the SAML login target received with
`_redirects` at the bound yields `authType(HttpCreds)`. -/
theorem marker_target_not_always_federated :
    shibbolethyWords samlHostSamePathRedirect.redirectionTarget.toString = true ∧
    (slotFinished specConfig DetermineAuthTypeJob.new samlHostSamePathRedirect).2
      = [JobEffect.getRequest samlHostSamePathRedirect.redirectionTarget] ∧
    AuthType.Shibboleth ∉
      (Discovery.run specConfig sampleFirst [samlHostSamePathRedirect, authRequiredReply]).emitted ∧
    AuthType.Shibboleth ∉
      JobEffect.signals (slotFinishedEach specConfig DetermineAuthTypeJob.new
        [samlHostSamePathRedirect, authRequiredReply]).2 ∧
    shibbolethyWords samlRedirect.redirectionTarget.toString = true ∧
    (slotFinished specConfig ⟨10, false⟩ samlRedirect).2
      = [JobEffect.authType AuthType.HttpCreds] := by
  decide

/-! ## Whole runs -/

/-- A call of `slotFinished` has one effect; it keeps `_redirects` and emits a
signal, or it adds one to `_redirects`, which was below the bound, and issues a
request. -/
theorem slotFinished_step (cfg : Config) (job : DetermineAuthTypeJob) (reply : Reply) :
    (∃ t, (slotFinished cfg job reply).2 = [JobEffect.authType t] ∧
      (slotFinished cfg job reply).1._redirects = job._redirects) ∨
    (∃ u, (slotFinished cfg job reply).2 = [JobEffect.getRequest u] ∧
      (slotFinished cfg job reply).1._redirects = job._redirects + 1 ∧
      job._redirects < cfg.maxRedirects) := by
  rcases slotFinished_cases cfg job reply with ⟨h, _⟩ | ⟨h, hb, _⟩ | ⟨h, _⟩
  · exact Or.inl ⟨_, by rw [h], by rw [h]⟩
  · exact Or.inr ⟨_, by rw [h], by rw [h], hb⟩
  · exact Or.inl ⟨_, by rw [h], by rw [h]⟩

/-- Every call of `slotFinished` calls `deleteLater()`. -/
theorem slotFinished_deleteLater (cfg : Config) (job : DetermineAuthTypeJob) (reply : Reply) :
    (slotFinished cfg job reply).1.deleteLaterCalled = true := by
  simp [slotFinished]

theorem JobEffect.requests_append (a b : List JobEffect) :
    JobEffect.requests (a ++ b) = JobEffect.requests a ++ JobEffect.requests b := by
  induction a with
  | nil => rfl
  | cons e es ih => cases e <;> simp [JobEffect.requests, ih]

theorem JobEffect.signals_append (a b : List JobEffect) :
    JobEffect.signals (a ++ b) = JobEffect.signals a ++ JobEffect.signals b := by
  induction a with
  | nil => rfl
  | cons e es ih => cases e <;> simp [JobEffect.signals, ih]

theorem JobEffect.length_split (a : List JobEffect) :
    (JobEffect.requests a).length + (JobEffect.signals a).length = a.length := by
  induction a with
  | nil => rfl
  | cons e es ih => cases e <;> simp [JobEffect.requests, JobEffect.signals] <;> omega

/-- However many replies `slotFinished` handles in turn on one object,
`_redirects` stays within the bound, it counts the requests issued, and each
reply has one effect. -/
theorem slotFinishedEach_invariant (cfg : Config) (replies : List Reply) :
    ∀ job : DetermineAuthTypeJob, job._redirects ≤ cfg.maxRedirects →
      (slotFinishedEach cfg job replies).1._redirects ≤ cfg.maxRedirects ∧
      ((JobEffect.requests (slotFinishedEach cfg job replies).2).length : Int)
        = (slotFinishedEach cfg job replies).1._redirects - job._redirects ∧
      (slotFinishedEach cfg job replies).2.length = replies.length := by
  induction replies with
  | nil => intro job h; simp [slotFinishedEach, JobEffect.requests, h]
  | cons r rs ih =>
    intro job h
    simp only [slotFinishedEach, JobEffect.requests_append, List.length_append, List.length_cons]
    rcases slotFinished_step cfg job r with ⟨t, he, hr⟩ | ⟨u, he, hr, hb⟩
    · obtain ⟨h1, h2, h3⟩ := ih (slotFinished cfg job r).1 (by rw [hr]; exact h)
      refine ⟨h1, ?_, ?_⟩
      · rw [he]; simp only [JobEffect.requests, List.length_nil]; rw [hr] at h2; push_cast; omega
      · rw [he, h3]; simp; omega
    · obtain ⟨h1, h2, h3⟩ := ih (slotFinished cfg job r).1 (by rw [hr]; omega)
      refine ⟨h1, ?_, ?_⟩
      · rw [he]; simp only [JobEffect.requests, List.length_cons, List.length_nil]
        rw [hr] at h2; push_cast; omega
      · rw [he, h3]; simp; omega

/-- A run that has ended ignores further replies. -/
theorem Discovery.deliver_of_terminal (cfg : Config) (d : Discovery) (reply : Reply)
    (h : d.terminal = true) : Discovery.deliver cfg d reply = d := by
  simp [Discovery.deliver, h]

theorem Discovery.foldl_deliver_of_terminal (cfg : Config) (replies : List Reply) :
    ∀ d : Discovery, d.terminal = true → replies.foldl (Discovery.deliver cfg) d = d := by
  induction replies with
  | nil => intro d _; rfl
  | cons r rs ih =>
    intro d h
    rw [List.foldl_cons, Discovery.deliver_of_terminal cfg d r h]
    exact ih d h

/-- The first reply reaches `slotFinished`; the object is deleted afterwards. -/
theorem Discovery.deliver_start (cfg : Config) (first : QUrl) (reply : Reply) :
    Discovery.deliver cfg (Discovery.start first) reply
      = { job := (slotFinished cfg DetermineAuthTypeJob.new reply).1
          destroyed := true
          pending := (JobEffect.requests (slotFinished cfg DetermineAuthTypeJob.new reply).2).getLast?
          probes := first :: JobEffect.requests (slotFinished cfg DetermineAuthTypeJob.new reply).2
          emitted := JobEffect.signals (slotFinished cfg DetermineAuthTypeJob.new reply).2 } := by
  simp [Discovery.deliver, Discovery.start, Discovery.terminal, slotFinished_deleteLater]

/-- Only the first reply of a run is handled. -/
theorem Discovery.run_cons (cfg : Config) (first : QUrl) (reply : Reply) (rest : List Reply) :
    Discovery.run cfg first (reply :: rest)
      = Discovery.deliver cfg (Discovery.start first) reply := by
  rw [Discovery.run, List.foldl_cons]
  apply Discovery.foldl_deliver_of_terminal
  rw [Discovery.deliver_start]
  simp [Discovery.terminal]

/-- C5, as the code has it. A reply that carries no redirect target, a network
failure (connection, DNS or TLS error) included, makes the call of
`slotFinished` that handles it emit `authType(HttpCreds)` once and issue no
request, which is what the same call does for an authentication challenge:
there is no failed state and no report of the failure apart from a resolved
scheme. As the reply to the first request of a run it ends the run with that
one signal, whatever the server sends afterwards. -/
theorem slotFinished_networkFailure_httpCreds (cfg : Config) (job : DetermineAuthTypeJob)
    (reply : Reply) (first : QUrl) (rest : List Reply)
    (h : reply.redirectionTarget.isEmpty = true) :
    slotFinished cfg job reply
      = ({ job with deleteLaterCalled := true }, [JobEffect.authType AuthType.HttpCreds]) ∧
    slotFinished cfg job reply
      = slotFinished cfg job
          ⟨QNetworkReply.AuthenticationRequiredError, reply.redirectionTarget⟩ ∧
    (Discovery.run cfg first (reply :: rest)).emitted = [AuthType.HttpCreds] ∧
    (Discovery.run cfg first (reply :: rest)).probes = [first] ∧
    (Discovery.run cfg first (reply :: rest)).pending = none ∧
    (Discovery.run cfg first (reply :: rest)).terminal = true ∧
    Discovery.run cfg first (reply :: rest)
      = Discovery.run cfg first
          (⟨QNetworkReply.AuthenticationRequiredError, reply.redirectionTarget⟩ :: rest) := by
  have hs := slotFinished_noTarget cfg job reply h
  have ha := slotFinished_authRequired cfg job
    ⟨QNetworkReply.AuthenticationRequiredError, reply.redirectionTarget⟩ rfl
  have hn := slotFinished_noTarget cfg DetermineAuthTypeJob.new reply h
  have hna := slotFinished_authRequired cfg DetermineAuthTypeJob.new
    ⟨QNetworkReply.AuthenticationRequiredError, reply.redirectionTarget⟩ rfl
  refine ⟨hs, by rw [hs, ha], ?_, ?_, ?_, ?_, ?_⟩
  · rw [Discovery.run_cons, Discovery.deliver_start, hn]
    rfl
  · rw [Discovery.run_cons, Discovery.deliver_start, hn]
    rfl
  · rw [Discovery.run_cons, Discovery.deliver_start, hn]
    rfl
  · rw [Discovery.run_cons, Discovery.deliver_start, hn]
    rfl
  · rw [Discovery.run_cons, Discovery.run_cons, Discovery.deliver_start,
      Discovery.deliver_start, hn, hna]

/-- Witness for C5 as amended: a refused connection as the first reply, a
same-path redirect sent after it. -/
theorem slotFinished_networkFailure_httpCreds_witness :
    connectionRefusedReply.redirectionTarget.isEmpty = true ∧
    (slotFinished specConfig DetermineAuthTypeJob.new connectionRefusedReply).2
      = [JobEffect.authType AuthType.HttpCreds] ∧
    (Discovery.run specConfig sampleFirst [connectionRefusedReply, samePathRedirect]).emitted
      = [AuthType.HttpCreds] :=
  have h := slotFinished_networkFailure_httpCreds specConfig DetermineAuthTypeJob.new
    connectionRefusedReply sampleFirst [samePathRedirect] (by decide)
  ⟨by decide, by rw [h.1], h.2.2.1⟩

/-- Counterexample to C5 as stated. A refused connection, a network failure
with no redirect target and no authentication challenge, makes the job emit
`authType(HttpCreds)`: an `authType` event is emitted for that reply, and the
run ends with the same signal as for a `401`. -/
theorem networkFailure_emits_authType :
    connectionRefusedReply.error = QNetworkReply.ConnectionRefusedError ∧
    connectionRefusedReply.error ≠ QNetworkReply.AuthenticationRequiredError ∧
    connectionRefusedReply.redirectionTarget.isEmpty = true ∧
    (slotFinished specConfig DetermineAuthTypeJob.new connectionRefusedReply).2
      = [JobEffect.authType AuthType.HttpCreds] ∧
    (Discovery.run specConfig sampleFirst [connectionRefusedReply]).emitted
      = [AuthType.HttpCreds] ∧
    (Discovery.run specConfig sampleFirst [connectionRefusedReply]).emitted
      = (Discovery.run specConfig sampleFirst [authRequiredReply]).emitted := by
  decide

/-- The guard on `_redirects`, seen when `slotFinished` handles every reply in
turn on one object: `_redirects` never passes the bound, at most that many
requests are issued, and once more replies than the bound have been handled an
`authType` signal has been emitted. -/
theorem slotFinishedEach_bound (cfg : Config) (replies : List Reply)
    (h0 : 0 ≤ cfg.maxRedirects) :
    (slotFinishedEach cfg DetermineAuthTypeJob.new replies).1._redirects ≤ cfg.maxRedirects ∧
    ((JobEffect.requests (slotFinishedEach cfg DetermineAuthTypeJob.new replies).2).length : Int)
      ≤ cfg.maxRedirects ∧
    (cfg.maxRedirects < replies.length →
      JobEffect.signals (slotFinishedEach cfg DetermineAuthTypeJob.new replies).2 ≠ []) := by
  have hnew : DetermineAuthTypeJob.new._redirects = 0 := rfl
  have h := slotFinishedEach_invariant cfg replies DetermineAuthTypeJob.new (by rw [hnew]; exact h0)
  rw [hnew] at h
  refine ⟨h.1, by omega, fun hlen hnil => ?_⟩
  have hsplit := JobEffect.length_split (slotFinishedEach cfg DetermineAuthTypeJob.new replies).2
  rw [hnil, List.length_nil, h.2.2] at hsplit
  omega

/-- C2 on the code: a server that answers every request with a redirect to the
discovery path, eleven replies of it. The first redirect is followed,
`_redirects` becomes 1 and `deleteLater()` is called; the object is deleted, so
no reply is ever handled with `_redirects >= 10`: the run stops with the second
request unanswered and no `authType` signal, where the bound was to end it with
`authType(HttpCreds)`. Handled in turn on a surviving object, the same replies
give ten followed redirects and then `authType(HttpCreds)`. -/
theorem run_cyclic_server_never_resolves :
    (Discovery.run specConfig sampleFirst (List.replicate 11 samePathRedirect)).job._redirects
      = 1 ∧
    (Discovery.run specConfig sampleFirst (List.replicate 11 samePathRedirect)).destroyed
      = true ∧
    (Discovery.run specConfig sampleFirst (List.replicate 11 samePathRedirect)).probes
      = [sampleFirst, samePathRedirect.redirectionTarget] ∧
    (Discovery.run specConfig sampleFirst (List.replicate 11 samePathRedirect)).pending
      = some samePathRedirect.redirectionTarget ∧
    (Discovery.run specConfig sampleFirst (List.replicate 11 samePathRedirect)).emitted = [] ∧
    (slotFinishedEach specConfig DetermineAuthTypeJob.new
      (List.replicate 11 samePathRedirect)).1._redirects = 10 ∧
    (slotFinishedEach specConfig DetermineAuthTypeJob.new
      (List.replicate 11 samePathRedirect)).2
      = List.replicate 10 (JobEffect.getRequest samePathRedirect.redirectionTarget)
          ++ [JobEffect.authType AuthType.HttpCreds] := by
  decide

/-- What the redirect branch is written to do, seen when `slotFinished` handles
every reply in turn on one object: a chain of same-path redirects that fits
under the bound is followed hop by hop, `_redirects` counting the hops. -/
theorem slotFinishedEach_chain (cfg : Config) (chain : List Reply) :
    ∀ job : DetermineAuthTypeJob,
      job._redirects + chain.length ≤ cfg.maxRedirects →
      (∀ r ∈ chain, r.error ≠ QNetworkReply.AuthenticationRequiredError ∧
        r.redirectionTarget.isEmpty = false ∧
        QString.endsWith r.redirectionTarget.toString cfg.davPath = true) →
      (slotFinishedEach cfg job chain).1._redirects = job._redirects + chain.length ∧
      (slotFinishedEach cfg job chain).2
        = chain.map (fun r => JobEffect.getRequest r.redirectionTarget) := by
  induction chain with
  | nil => intro job _ _; simp [slotFinishedEach]
  | cons r rs ih =>
    intro job hlen hall
    obtain ⟨he, ht, hp⟩ := hall r (List.mem_cons_self r rs)
    have hlen1 : job._redirects + ((rs.length : Int) + 1) ≤ cfg.maxRedirects := by
      simpa using hlen
    have hs := slotFinished_follow cfg job r (by omega) he ht hp
    have hi := ih (slotFinished cfg job r).1 (by rw [hs]; simp only []; omega)
      (fun x hx => hall x (List.mem_cons_of_mem r hx))
    simp only [slotFinishedEach, List.map_cons, List.length_cons]
    rw [hi.1, hi.2, hs]
    refine ⟨?_, by simp⟩
    push_cast
    omega

/-- C4 on the code: a chain of two same-path redirects, then a `401`. The
first redirect is followed and `_redirects` becomes 1; `deleteLater()` has been
called by then, the object is deleted, and neither the second redirect nor the
final answer is handled: `_redirects` is never 2, the second hop is not
requested and no `authType` is emitted. Handled in turn on a surviving object,
the same replies give `_redirects = 2` and both hops. -/
theorem run_two_hop_chain_stops_after_first_hop :
    (Discovery.run specConfig sampleFirst
      [samePathRedirect, samePathRedirect, authRequiredReply]).job._redirects = 1 ∧
    (Discovery.run specConfig sampleFirst
      [samePathRedirect, samePathRedirect, authRequiredReply]).probes
      = [sampleFirst, samePathRedirect.redirectionTarget] ∧
    (Discovery.run specConfig sampleFirst
      [samePathRedirect, samePathRedirect, authRequiredReply]).destroyed = true ∧
    (Discovery.run specConfig sampleFirst
      [samePathRedirect, samePathRedirect, authRequiredReply]).emitted = [] ∧
    (slotFinishedEach specConfig DetermineAuthTypeJob.new
      [samePathRedirect, samePathRedirect]).1._redirects = 2 ∧
    (slotFinishedEach specConfig DetermineAuthTypeJob.new
      [samePathRedirect, samePathRedirect, authRequiredReply]).2
      = [JobEffect.getRequest samePathRedirect.redirectionTarget,
          JobEffect.getRequest samePathRedirect.redirectionTarget,
          JobEffect.authType AuthType.HttpCreds] := by
  decide

/-- C6 on the code: one same-path redirect, then a `401`. The call of
`slotFinished` that follows the redirect emits nothing and calls
`deleteLater()`; the object is deleted before the `401` finishes, so the run
ends with no `authType` signal at all. Handled in turn on a surviving object,
the same replies give exactly one signal. -/
theorem run_after_redirect_emits_no_authType :
    (slotFinished specConfig DetermineAuthTypeJob.new samePathRedirect)
      = (⟨1, true⟩, [JobEffect.getRequest samePathRedirect.redirectionTarget]) ∧
    (Discovery.run specConfig sampleFirst [samePathRedirect, authRequiredReply]).terminal
      = true ∧
    (Discovery.run specConfig sampleFirst [samePathRedirect, authRequiredReply]).emitted = [] ∧
    JobEffect.signals (slotFinishedEach specConfig DetermineAuthTypeJob.new
      [samePathRedirect, authRequiredReply]).2 = [AuthType.HttpCreds] := by
  decide

/-! ## The wizard's slots -/

/-- C7. For every typed text that starts with neither "http://" nor
"https://", `slotDetermineAuthType` sets the scheme of the URL to "https" and
stores it in the account before it creates the first job; for a text that
starts with one of the two, the account gets the URL of `QUrl::fromUserInput`
untouched, scheme included. With `fromUserInput` turning "example.com" into
`http://example.com`, as Qt does, the discovery request goes to
`https://example.com/remote.php/webdav/`. -/
theorem slotDetermineAuthType_scheme (fromUserInput : QString → QUrl)
    (w : OwncloudSetupWizard) (urlString : QString) :
    (QString.startsWith urlString "http://".toList = false →
      QString.startsWith urlString "https://".toList = false →
      (slotDetermineAuthType fromUserInput w urlString).1.accountUrl.scheme = "https".toList ∧
      (slotDetermineAuthType fromUserInput w urlString).1.accountUrl.rest
        = (fromUserInput urlString).rest ∧
      (slotDetermineAuthType fromUserInput w urlString).2
        = [WizardCall.accountSetUrl ((fromUserInput urlString).setScheme "https".toList),
            WizardCall.newCheckServerJob]) ∧
    (QString.startsWith urlString "http://".toList = true ∨
        QString.startsWith urlString "https://".toList = true →
      (slotDetermineAuthType fromUserInput w urlString).1.accountUrl = fromUserInput urlString ∧
      (slotDetermineAuthType fromUserInput w urlString).2
        = [WizardCall.accountSetUrl (fromUserInput urlString), WizardCall.newCheckServerJob]) ∧
    (fromUserInput "example.com".toList = ⟨"http".toList, "//example.com".toList⟩ →
      (Account.davUrl
        (slotDetermineAuthType fromUserInput w "example.com".toList).1.accountUrl).toString
        = "https://example.com/remote.php/webdav/".toList) := by
  refine ⟨fun h1 h2 => ?_, fun h => ?_, fun h => ?_⟩
  · simp only [slotDetermineAuthType]
    rw [h1, h2]
    simp [QUrl.setScheme]
  · rcases h with h | h
    · simp only [slotDetermineAuthType]
      rw [h]
      simp
    · simp only [slotDetermineAuthType]
      rw [h]
      simp
  · have h1 : QString.startsWith "example.com".toList "http://".toList = false := by decide
    have h2 : QString.startsWith "example.com".toList "https://".toList = false := by decide
    simp only [slotDetermineAuthType, h1, h2, h]
    decide

/-- Witness for C7: "example.com", "http://example.com" and
"https://example.com" as typed. -/
theorem slotDetermineAuthType_scheme_witness :
    (slotDetermineAuthType sampleFromUserInput sampleWizard "example.com".toList).1.accountUrl.scheme
      = "https".toList ∧
    (slotDetermineAuthType sampleFromUserInput sampleWizard
        "http://example.com".toList).1.accountUrl
      = ⟨"http".toList, "//example.com".toList⟩ ∧
    (slotDetermineAuthType sampleFromUserInput sampleWizard
        "https://example.com".toList).1.accountUrl
      = ⟨"https".toList, "//example.com".toList⟩ ∧
    (Account.davUrl
      (slotDetermineAuthType sampleFromUserInput sampleWizard
        "example.com".toList).1.accountUrl).toString
      = "https://example.com/remote.php/webdav/".toList :=
  ⟨((slotDetermineAuthType_scheme sampleFromUserInput sampleWizard "example.com".toList).1
      (by decide) (by decide)).1,
    ((slotDetermineAuthType_scheme sampleFromUserInput sampleWizard
      "http://example.com".toList).2.1 (Or.inl (by decide))).1,
    ((slotDetermineAuthType_scheme sampleFromUserInput sampleWizard
      "https://example.com".toList).2.1 (Or.inr (by decide))).1,
    (slotDetermineAuthType_scheme sampleFromUserInput sampleWizard []).2.2 (by decide)⟩

/-- C8. For every reply to the validation request, `slotConnectionCheck` calls
`successfulStep` and displays no error exactly when the reply's error is
`NoError` or `ContentNotFoundError`; then `successfulStep` is all it does, in
particular for the `404` of a missing resource. -/
theorem slotConnectionCheck_valid_iff (reply : Reply) :
    ((WizardCall.successfulStep ∈ slotConnectionCheck reply ∧
        ∀ t, WizardCall.displayError t ∉ slotConnectionCheck reply) ↔
      (reply.error = QNetworkReply.NoError ∨
        reply.error = QNetworkReply.ContentNotFoundError)) ∧
    (reply.error = QNetworkReply.NoError ∨ reply.error = QNetworkReply.ContentNotFoundError →
      slotConnectionCheck reply = [WizardCall.successfulStep]) ∧
    (reply.error = QNetworkReply.ContentNotFoundError →
      onAuthResult (ValidateDavAuthJob.slotFinished reply) = [WizardCall.successfulStep]) := by
  by_cases h : reply.error = QNetworkReply.NoError ∨
      reply.error = QNetworkReply.ContentNotFoundError
  · have hs : slotConnectionCheck reply = [WizardCall.successfulStep] := by
      simp only [slotConnectionCheck, if_pos h]
    refine ⟨?_, fun _ => hs, fun _ => ?_⟩
    · rw [hs]
      simp [h]
    · simp [onAuthResult, ValidateDavAuthJob.slotFinished, hs]
  · have hs : slotConnectionCheck reply
        = [WizardCall.displayError [Fragment.tr "Error: Wrong credentials." []]] := by
      simp only [slotConnectionCheck, if_neg h]
    refine ⟨?_, fun hx => absurd hx h, fun hx => absurd (Or.inr hx) h⟩
    rw [hs]
    simp [h]

/-- Witness for C8: a `404`, `ContentNotFoundError`, on the probed path. -/
theorem slotConnectionCheck_valid_iff_witness :
    slotConnectionCheck ⟨QNetworkReply.ContentNotFoundError, QUrl.empty⟩
      = [WizardCall.successfulStep] :=
  (slotConnectionCheck_valid_iff ⟨QNetworkReply.ContentNotFoundError, QUrl.empty⟩).2.1
    (Or.inr rfl)

/-- C9, as the code has it. `ValidateDavAuthJob::slotFinished` hands the reply
on unchanged in `authResult`, once, so the reports for two replies with
different error codes differ; `slotConnectionCheck` answers every reply whose
error is neither `NoError` nor `ContentNotFoundError`, a network failure
included, with the one message "Error: Wrong credentials.". -/
theorem validation_report_by_stage (reply other : Reply) :
    ValidateDavAuthJob.slotFinished reply = [reply] ∧
    (reply.error ≠ other.error →
      ValidateDavAuthJob.slotFinished reply ≠ ValidateDavAuthJob.slotFinished other) ∧
    (reply.error ≠ QNetworkReply.NoError →
      reply.error ≠ QNetworkReply.ContentNotFoundError →
      slotConnectionCheck reply
        = [WizardCall.displayError [Fragment.tr "Error: Wrong credentials." []]]) := by
  refine ⟨rfl, fun h hx => ?_, fun h1 h2 => ?_⟩
  · simp only [ValidateDavAuthJob.slotFinished, List.cons.injEq, and_true] at hx
    exact h (by rw [hx])
  · simp [slotConnectionCheck, h1, h2]

/-- Witness for C9 as amended: a refused connection against a `401`. -/
theorem validation_report_by_stage_witness :
    ValidateDavAuthJob.slotFinished connectionRefusedReply
      ≠ ValidateDavAuthJob.slotFinished authRequiredReply ∧
    slotConnectionCheck connectionRefusedReply
      = [WizardCall.displayError [Fragment.tr "Error: Wrong credentials." []]] :=
  have h := validation_report_by_stage connectionRefusedReply authRequiredReply
  ⟨h.2.1 (by decide), h.2.2 (by decide) (by decide)⟩

/-- Counterexample to C9 as stated. For a refused connection and for a `401`
the wizard reports the same thing, "Error: Wrong credentials.": the network
failure is not reported as inconclusive and cannot be told from invalid
credentials. -/
theorem networkFailure_reported_as_wrong_credentials :
    connectionRefusedReply.error = QNetworkReply.ConnectionRefusedError ∧
    authRequiredReply.error = QNetworkReply.AuthenticationRequiredError ∧
    onAuthResult (ValidateDavAuthJob.slotFinished connectionRefusedReply)
      = [WizardCall.displayError [Fragment.tr "Error: Wrong credentials." []]] ∧
    onAuthResult (ValidateDavAuthJob.slotFinished connectionRefusedReply)
      = onAuthResult (ValidateDavAuthJob.slotFinished authRequiredReply) := by
  decide

theorem finalizeSetupCalls_append (a b : List WizardCall) :
    finalizeSetupCalls (a ++ b) = finalizeSetupCalls a ++ finalizeSetupCalls b := by
  induction a with
  | nil => rfl
  | cons c cs ih => cases c <;> simp [finalizeSetupCalls, ih]

/-- One call of `finalizeSetup` makes one call of `enableFinishOnResultWidget`. -/
theorem finalizeSetupCalls_finalizeSetup (appNameGUI : QString) (w : OwncloudSetupWizard)
    (success : Bool) : finalizeSetupCalls (finalizeSetup appNameGUI w success) = [success] := by
  unfold finalizeSetup
  split_ifs <;> simp [finalizeSetupCalls]

/-- The two outcomes of `slotCreateRemoteFolderFinished`: some calls that are
not `finalizeSetup`, then `finalizeSetup(true)` on the unchanged wizard or
`finalizeSetup(false)` after `_remoteFolder.clear()`. -/
theorem slotCreateRemoteFolderFinished_shape (appNameGUI : QString)
    (w : OwncloudSetupWizard) (e : Int) :
    ∃ before, finalizeSetupCalls before = [] ∧
      (((e = 0 ∨ (202 ≤ e ∧ e < 300)) ∧
          slotCreateRemoteFolderFinished appNameGUI w e
            = (w, before ++ finalizeSetup appNameGUI w true)) ∨
        (¬ (e = 0 ∨ (202 ≤ e ∧ e < 300)) ∧
          slotCreateRemoteFolderFinished appNameGUI w e
            = ({ w with _remoteFolder := [] },
                before ++ finalizeSetup appNameGUI { w with _remoteFolder := [] } false))) := by
  by_cases h0 : e = QNetworkReply.NoError
  · apply Exists.intro
    refine ⟨?hc, Or.inl ⟨Or.inl h0, ?hs⟩⟩
    case hs => simp only [slotCreateRemoteFolderFinished, if_pos h0]; rfl
    case hc => rfl
  by_cases h1 : e = 202
  · apply Exists.intro
    refine ⟨?hc, Or.inl ⟨Or.inr (by omega), ?hs⟩⟩
    case hs => simp only [slotCreateRemoteFolderFinished, if_neg h0, if_pos h1]; rfl
    case hc => rfl
  by_cases h2 : e > 202 ∧ e < 300
  · apply Exists.intro
    refine ⟨?hc, Or.inl ⟨Or.inr (by omega), ?hs⟩⟩
    case hs =>
      simp only [slotCreateRemoteFolderFinished, if_neg h0, if_neg h1, if_pos h2]; rfl
    case hc => rfl
  have hbad : ¬ (e = 0 ∨ (202 ≤ e ∧ e < 300)) := by
    have h0x : e ≠ 0 := h0
    omega
  by_cases h3 : e = QNetworkReply.OperationCanceledError
  · apply Exists.intro
    refine ⟨?hc, Or.inr ⟨hbad, ?hs⟩⟩
    case hs =>
      simp only [slotCreateRemoteFolderFinished, if_neg h0, if_neg h1, if_neg h2, if_pos h3]; rfl
    case hc => rfl
  · apply Exists.intro
    refine ⟨?hc, Or.inr ⟨hbad, ?hs⟩⟩
    case hs =>
      simp only [slotCreateRemoteFolderFinished, if_neg h0, if_neg h1, if_neg h2, if_neg h3]; rfl
    case hc => rfl

/-- C10. For every error code `e`, `slotCreateRemoteFolderFinished` ends with
one call of `finalizeSetup` and makes no other; it is `finalizeSetup(false)`
exactly when `e` is neither 0 nor in `202 <= e < 300`, and then `_remoteFolder`
has been cleared; for `e = 0`, `e = 202` and `202 < e < 300` it is
`finalizeSetup(true)` and the wizard's state is as before. -/
theorem slotCreateRemoteFolderFinished_outcome (appNameGUI : QString)
    (w : OwncloudSetupWizard) (e : Int) :
    (finalizeSetupCalls (slotCreateRemoteFolderFinished appNameGUI w e).2 = [false] ↔
      ¬ (e = 0 ∨ (202 ≤ e ∧ e < 300))) ∧
    (finalizeSetupCalls (slotCreateRemoteFolderFinished appNameGUI w e).2 = [true] ↔
      (e = 0 ∨ (202 ≤ e ∧ e < 300))) ∧
    (¬ (e = 0 ∨ (202 ≤ e ∧ e < 300)) →
      (slotCreateRemoteFolderFinished appNameGUI w e).1._remoteFolder = [] ∧
      ∃ before, finalizeSetupCalls before = [] ∧
        (slotCreateRemoteFolderFinished appNameGUI w e).2
          = before ++ finalizeSetup appNameGUI
              (slotCreateRemoteFolderFinished appNameGUI w e).1 false) ∧
    ((e = 0 ∨ (202 ≤ e ∧ e < 300)) →
      (slotCreateRemoteFolderFinished appNameGUI w e).1 = w ∧
      ∃ before, finalizeSetupCalls before = [] ∧
        (slotCreateRemoteFolderFinished appNameGUI w e).2
          = before ++ finalizeSetup appNameGUI w true) ∧
    (finalizeSetupCalls (slotCreateRemoteFolderFinished appNameGUI w e).2).length = 1 := by
  obtain ⟨before, hb, ⟨hok, hs⟩ | ⟨hbad, hs⟩⟩ :=
    slotCreateRemoteFolderFinished_shape appNameGUI w e
  · have hc : finalizeSetupCalls (slotCreateRemoteFolderFinished appNameGUI w e).2 = [true] := by
      rw [hs]
      simp only [finalizeSetupCalls_append, finalizeSetupCalls_finalizeSetup, hb,
        List.nil_append]
    refine ⟨?_, ?_, fun hn => absurd hok hn, fun _ => ⟨by rw [hs], before, hb, by rw [hs]⟩, ?_⟩
    · rw [hc]
      simp [hok]
    · rw [hc]
      simp [hok]
    · rw [hc]
      rfl
  · have hc : finalizeSetupCalls (slotCreateRemoteFolderFinished appNameGUI w e).2 = [false] := by
      rw [hs]
      simp only [finalizeSetupCalls_append, finalizeSetupCalls_finalizeSetup, hb,
        List.nil_append]
    refine ⟨?_, ?_, fun _ => ⟨by rw [hs], before, hb, by rw [hs]⟩, fun hn => absurd hn hbad, ?_⟩
    · rw [hc]
      simp [hbad]
    · rw [hc]
      simp [hbad]
    · rw [hc]
      rfl

/-- Witness for C10: the credentials error 5, the `202` of an existing folder
and the `404` code 203. -/
theorem slotCreateRemoteFolderFinished_outcome_witness :
    (slotCreateRemoteFolderFinished "ownCloud".toList sampleWizard 5).1._remoteFolder = [] ∧
    (slotCreateRemoteFolderFinished "ownCloud".toList sampleWizard 202).1 = sampleWizard ∧
    finalizeSetupCalls (slotCreateRemoteFolderFinished "ownCloud".toList sampleWizard 203).2
      = [true] :=
  ⟨((slotCreateRemoteFolderFinished_outcome "ownCloud".toList sampleWizard 5).2.2.1
      (by decide)).1,
    ((slotCreateRemoteFolderFinished_outcome "ownCloud".toList sampleWizard 202).2.2.2.1
      (by decide)).1,
    (slotCreateRemoteFolderFinished_outcome "ownCloud".toList sampleWizard 203).2.1.mpr
      (by decide)⟩

end Mirall
